import Mathlib

/-!
Verification of the bubble-sheet recognition pipeline of the `chambai`
repository, shallowly embedded in Lean 4.

The embedded code comes from:
* `src/components/ImageProcessor.tsx` (the main, most developed variant):
  marker-based grid generation, the default/fallback grid, the per-bubble
  fill classifier `isBubbleFilled`, and the four answer extractors
  `detectStudentId`, `detectSection1Answers`, `detectSection2Answers`,
  `detectSection3Answers`, plus the orchestration in `processWithOpenCV`.
* `test-scoring-app/src/components/ImageProcessor.tsx` (the earlier
  variant): only its `isBubbleFilled` error path, which differs from the
  main variant.
* the corner-reordering function `reorder` from the OpenCV utility module.

Modelling conventions:
* JS numbers are modelled as `ℚ` (all arithmetic performed by this code is
  exact on rationals; no rounding-sensitive operation is embedded).
* The grayscale image handed to the extractors is abstracted by the
  fill-confidence function `conf : Bubble → ℚ`, standing for
  `fun b => isBubbleFilled b gray`: every extractor uses the image only
  through that call.
* The classifier statistics follow OpenCV semantics: `cv.mean` is the
  arithmetic mean of the pixels, `cv.meanStdDev` returns the population
  standard deviation.  The source stores that standard deviation in a
  variable named `variance` and compares it with 50; since the standard
  deviation is the square root of the (nonnegative) variance, the test
  `stdDev > 50` is embedded as the equivalent `variance > 2500`, which
  keeps the development inside `ℚ`.
* JS exceptions are modelled by `Option`/bounds checks: the `try/catch`
  around region extraction becomes an explicit bounds test, and the
  `catch` branch is the `else` branch of the embedded function.
-/

set_option maxRecDepth 100000

namespace Chambai

/-- Pixel statistics: arithmetic mean of a pixel list (`cv.mean`). -/
def mean (ps : List ℚ) : ℚ := ps.sum / ps.length

/-- Pixel statistics: population variance of a pixel list.  `cv.meanStdDev`
returns its square root (the population standard deviation). -/
def variance (ps : List ℚ) : ℚ :=
  (ps.map (fun v => (v - mean ps) ^ 2)).sum / ps.length

/-- The arithmetic core of `isBubbleFilled` (main variant), applied to the
pixels of the padded, Gaussian-blurred sub-image:
`fillConfidence = 1 - mean/255`; if the standard deviation exceeds 50
(equivalently the variance exceeds 2500, see the header), the confidence is
replaced by `max 0.3 (fillConfidence - 0.1)`. -/
def isBubbleFilledCore (ps : List ℚ) : ℚ :=
  let fillConfidence := 1 - mean ps / 255
  if variance ps > 2500 then max (3/10) (fillConfidence - 1/10) else fillConfidence

/-- A single-channel image: dimensions plus a pixel lookup. -/
structure GrayImage where
  rows : ℕ
  cols : ℕ
  pixel : ℕ → ℕ → ℚ

/-- An OpenCV `Rect` (integer coordinates, as stored by `cv.Rect`). -/
structure RoiRect where
  x : ℤ
  y : ℤ
  width : ℤ
  height : ℤ
deriving DecidableEq

/-- The condition under which `mat.roi(rect)` succeeds: the rectangle lies
inside the matrix.  Outside it, OpenCV throws (caught by the source's
`try/catch`). -/
def roiInBounds (img : GrayImage) (r : RoiRect) : Prop :=
  0 ≤ r.x ∧ 0 ≤ r.y ∧ 0 ≤ r.width ∧ 0 ≤ r.height ∧
    r.x + r.width ≤ (img.cols : ℤ) ∧ r.y + r.height ≤ (img.rows : ℤ)

instance (img : GrayImage) (r : RoiRect) : Decidable (roiInBounds img r) := by
  unfold roiInBounds; infer_instance

/-- The pixels of a (valid) rectangular region, row-major. -/
def roiPixels (img : GrayImage) (r : RoiRect) : List ℚ :=
  (List.range r.height.toNat).flatMap fun i =>
    (List.range r.width.toNat).map fun j =>
      img.pixel (r.y.toNat + i) (r.x.toNat + j)

/-- OpenCV `BORDER_REFLECT_101` index folding for a 1-D axis of length `n`. -/
def reflect101 (n : ℕ) (i : ℤ) : ℕ :=
  if i < 0 then (-i).toNat else if (n : ℤ) ≤ i then (2 * n - 2 - i).toNat else i.toNat

/-- Horizontal pass of the separable 3×3 Gaussian kernel (σ = 0 with kernel
size 3 uses the fixed taps 1/4, 1/2, 1/4). -/
def blurH (w : ℕ) (f : ℕ → ℕ → ℚ) (i j : ℕ) : ℚ :=
  f i (reflect101 w ((j : ℤ) - 1)) / 4 + f i j / 2 + f i (reflect101 w ((j : ℤ) + 1)) / 4

/-- Vertical pass of the separable 3×3 Gaussian kernel. -/
def blurV (h : ℕ) (f : ℕ → ℕ → ℚ) (i j : ℕ) : ℚ :=
  f (reflect101 h ((i : ℤ) - 1)) j / 4 + f i j / 2 + f (reflect101 h ((i : ℤ) + 1)) j / 4

/-- The pixels of the region after the 3×3 Gaussian blur (the 8-bit rounding
OpenCV applies after the convolution is not modelled; no theorem below
depends on the blurred values). -/
def blurredRoiPixels (img : GrayImage) (r : RoiRect) : List ℚ :=
  let f := fun i j => img.pixel (r.y.toNat + i) (r.x.toNat + j)
  let g := blurV r.height.toNat (blurH r.width.toNat f)
  (List.range r.height.toNat).flatMap fun i =>
    (List.range r.width.toNat).map fun j => g i j

/-- The ROI rectangle built by the main `isBubbleFilled`: padding 2,
`x`/`y` clamped at 0 (the width/height are not clamped by the source). -/
def padRect (b : RoiRect) : RoiRect :=
  { x := max 0 (b.x - 2), y := max 0 (b.y - 2),
    width := b.width + 4, height := b.height + 4 }

/-- `isBubbleFilled` of the main variant: pad the region by 2, extract it,
blur it, apply `isBubbleFilledCore`; any extraction failure is caught and
yields confidence 0. -/
def isBubbleFilled (img : GrayImage) (b : RoiRect) : ℚ :=
  if roiInBounds img (padRect b) then isBubbleFilledCore (blurredRoiPixels img (padRect b))
  else 0

/-- `isBubbleFilled` of the earlier `test-scoring-app` variant: no padding,
no blur, no variance test, and the `catch` branch returns 0.5. -/
def isBubbleFilledLegacy (img : GrayImage) (b : RoiRect) : ℚ :=
  if roiInBounds img b then 1 - mean (roiPixels img b) / 255
  else 1/2

/-- The `Bubble` record of `ImageProcessor.tsx`.  Optional TS fields become
`Option`s (`undefined` = `none`).  The `symbol` field is the extra field the
fallback generator attaches to the sign/decimal bubbles of section 3. -/
structure Bubble where
  x : ℚ
  y : ℚ
  width : ℚ
  height : ℚ
  area : ℚ
  circularity : ℚ
  «section» : Option String := none
  column : Option ℕ := none
  row : Option ℕ := none
  question : Option ℕ := none
  option : Option String := none
  subOption : Option String := none
  value : Option Bool := none
  digit : Option ℕ := none
  symbol : Option String := none
deriving DecidableEq

/-- A detected reference-marker centre. -/
structure MPoint where
  x : ℚ
  y : ℚ
deriving DecidableEq

/-- The output of `detectReferenceMarkers`. -/
structure Markers where
  corners : List MPoint
  edges : List MPoint

/-- `Math.min(...l)` over a list (only ever applied to nonempty lists by the
embedded code; the `[]` case is unreachable). -/
def jsMinQ (l : List ℚ) : ℚ :=
  match l with
  | [] => 0
  | a :: r => r.foldl min a

/-- `Math.max(...l)` over a list. -/
def jsMaxQ (l : List ℚ) : ℚ :=
  match l with
  | [] => 0
  | a :: r => r.foldl max a

/-- `generateStudentInfoBubbles` (marker-based path): 9 digit columns × 10
rows. -/
def generateStudentInfoBubbles (startX startY width height : ℚ) : List Bubble :=
  (List.range 9).flatMap fun (col : ℕ) =>
    (List.range 10).map fun (row : ℕ) =>
      { x := startX + col * (width / 9) + (width / 9) * (3/10)
        y := startY + height * (1/10) + row * (height * (3/10) / 10)
        width := 15, height := 15, area := 225, circularity := 4/5
        «section» := some "studentId", column := some col, row := some row }

/-- `generateSection1Bubbles` (marker-based path): 4 question columns × 10
rows × options A–D. -/
def generateSection1Bubbles (startX startY width height : ℚ) : List Bubble :=
  (List.range 4).flatMap fun (qCol : ℕ) =>
    (List.range 10).flatMap fun (qRow : ℕ) =>
      (List.range 4).map fun (o : ℕ) =>
        { x := startX + qCol * (width / 4) + o * (width / 4 / 4) + (width / 4) * (1/10)
          y := startY + height * (35/100) + qRow * (height * (3/10) / 10)
          width := 12, height := 12, area := 144, circularity := 4/5
          «section» := some "section1", question := some (qCol * 10 + qRow + 1)
          option := some (["A", "B", "C", "D"].getD o "") }

/-- `generateSection2Bubbles` (marker-based path): 8 questions × sub-options
a–d × the two states (Đúng first, hence `value = (o = 0)`). -/
def generateSection2Bubbles (startX startY width height : ℚ) : List Bubble :=
  (List.range 8).flatMap fun (q : ℕ) =>
    (List.range 4).flatMap fun (sub : ℕ) =>
      (List.range 2).map fun (o : ℕ) =>
        { x := startX + (q % 4) * (width / 4) + sub * (width / 4 / 4)
              + o * (width / 4 / 4 / 2) + (width / 4) * (5/100)
          y := startY + height * (65/100) + (q / 4) * (height * (15/100) / (8 / 2))
              + sub * (height * (15/100) / (8 / 2) / 4)
          width := 10, height := 10, area := 100, circularity := 4/5
          «section» := some "section2", question := some (q + 1)
          subOption := some (["a", "b", "c", "d"].getD sub "")
          value := some (o == 0) }

/-- `generateSection3Bubbles` (marker-based path): 6 questions × digits 0–9. -/
def generateSection3Bubbles (startX startY width height : ℚ) : List Bubble :=
  (List.range 6).flatMap fun (q : ℕ) =>
    (List.range 10).map fun (digit : ℕ) =>
      { x := startX + q * (width / 6) + (width / 6) * (3/10)
        y := startY + height * (7/10) + digit * (height * (3/10) / 10)
        width := 12, height := 12, area := 144, circularity := 4/5
        «section» := some "section3", question := some (q + 1), digit := some digit }

/-- `generateDefaultBubblePositions` (main variant): the fallback grid built
from fixed fractional offsets of the raw image size.  Faithful oddities of
the source are kept: the student-ID block uses `column` for the digit value
and `row` for the field index; the section-2 bubbles carry `option` (not
`subOption`) and no `value`; section 3 includes `-` and `,` symbol bubbles. -/
def generateDefaultBubblePositions (imageWidth imageHeight : ℚ) : List Bubble :=
  let studentInfoStartX := imageWidth * (72/100)
  let studentInfoWidth := imageWidth * (23/100)
  let idBubbles := (List.range 10).flatMap fun (row : ℕ) =>
    (List.range 10).map fun (col : ℕ) =>
      ({ x := studentInfoStartX + col * (studentInfoWidth / 10)
         y := imageHeight * (135/1000) + row * (imageHeight * (18/100) / 10)
         width := 8, height := 8, area := 64, circularity := 4/5
         «section» := some "studentId", column := some col, row := some row } : Bubble)
  let section1StartX := imageWidth * (8/100)
  let section1Width := imageWidth * (85/100)
  let section1StartY := imageHeight * (35/100)
  let section1Height := imageHeight * (25/100)
  let s1Bubbles := (List.range 4).flatMap fun (qCol : ℕ) =>
    (List.range 10).flatMap fun (qRow : ℕ) =>
      (List.range 4).map fun (o : ℕ) =>
        ({ x := section1StartX + qCol * (section1Width / 4) + o * 30 + 25
           y := section1StartY + qRow * (section1Height / 10)
           width := 12, height := 12, area := 144, circularity := 4/5
           «section» := some "section1", question := some (qCol * 10 + qRow + 1)
           option := some (["A", "B", "C", "D"].getD o "") } : Bubble)
  let section2StartX := imageWidth * (8/100)
  let section2Width := imageWidth * (85/100)
  let section2StartY := imageHeight * (615/1000)
  let section2Height := imageHeight * (13/100)
  let s2Bubbles := (List.range 8).flatMap fun (qCol : ℕ) =>
    (List.range 4).map fun (qRow : ℕ) =>
      ({ x := section2StartX + qCol * (section2Width / 8) + 25
         y := section2StartY + qRow * (section2Height / 4)
         width := 12, height := 12, area := 144, circularity := 4/5
         «section» := some "section2", question := some (qCol + 1)
         option := some (["a", "b", "c", "d"].getD qRow "") } : Bubble)
  let section3StartX := imageWidth * (8/100)
  let section3Width := imageWidth * (85/100)
  let section3StartY := imageHeight * (76/100)
  let s3Bubbles := (List.range 6).flatMap fun (qCol : ℕ) =>
    let colX := section3StartX + qCol * (section3Width / 6)
    ({ x := colX + 20, y := section3StartY + 10
       width := 10, height := 10, area := 100, circularity := 4/5
       «section» := some "section3", question := some (qCol + 1), symbol := some "-" } : Bubble)
    :: ({ x := colX + 20, y := section3StartY + 25
          width := 10, height := 10, area := 100, circularity := 4/5
          «section» := some "section3", question := some (qCol + 1), symbol := some "," } : Bubble)
    :: (List.range 10).map fun (digit : ℕ) =>
      ({ x := colX + (digit / 5) * 20 + 10
         y := section3StartY + 40 + (digit % 5) * 15
         width := 10, height := 10, area := 100, circularity := 4/5
         «section» := some "section3", question := some (qCol + 1), digit := some digit } : Bubble)
  idBubbles ++ s1Bubbles ++ s2Bubbles ++ s3Bubbles

/-- `generateBubbleGrid` (main variant): with at least 4 corner markers the
sheet bounding box is the min/max of their centres and the four blocks are
laid out in vertical quarters; otherwise the fallback grid is used. -/
def generateBubbleGrid (markers : Markers) (imageWidth imageHeight : ℚ) : List Bubble :=
  if markers.corners.length < 4 then generateDefaultBubblePositions imageWidth imageHeight
  else
    let leftX := jsMinQ (markers.corners.map (fun c => c.x))
    let rightX := jsMaxQ (markers.corners.map (fun c => c.x))
    let topY := jsMinQ (markers.corners.map (fun c => c.y))
    let bottomY := jsMaxQ (markers.corners.map (fun c => c.y))
    let sheetWidth := rightX - leftX
    let sheetHeight := bottomY - topY
    let sectionWidth := sheetWidth / 4
    generateStudentInfoBubbles leftX topY (sectionWidth * (4/5)) sheetHeight
      ++ generateSection1Bubbles (leftX + sectionWidth) topY sectionWidth sheetHeight
      ++ generateSection2Bubbles (leftX + sectionWidth * 2) topY sectionWidth sheetHeight
      ++ generateSection3Bubbles (leftX + sectionWidth * 3) topY sectionWidth sheetHeight

/-- The section-1 bubbles, as filtered by `detectSection1Answers`. -/
def section1Bubbles (bubbles : List Bubble) : List Bubble :=
  bubbles.filter fun b => b.«section» == some "section1"

/-- The bubbles grouped under question `q` by `detectSection1Answers`
(`questions[questionNum].push(bubble)` in source push order). -/
def questionBubbles (bubbles : List Bubble) (q : ℕ) : List Bubble :=
  (section1Bubbles bubbles).filter fun b => b.question == some q

/-- One step of the section-1 selection loop: keep `(bestConfidence,
bestAnswer)` unless the bubble's confidence beats the current best, exceeds
0.4 and the bubble has a (truthy, i.e. nonempty) `option`. -/
def s1Step (conf : Bubble → ℚ) (best : ℚ × String) (b : Bubble) : ℚ × String :=
  if conf b > best.1 ∧ conf b > 2/5 ∧ b.option.getD "" ≠ "" then
    (conf b, b.option.getD "")
  else best

/-- The inner loop of `detectSection1Answers` for one question, starting
from `bestConfidence = 0`, `bestAnswer = ''`. -/
def bestScan (conf : Bubble → ℚ) (bs : List Bubble) : ℚ × String :=
  bs.foldl (s1Step conf) (0, "")

/-- `detectSection1Answers` (main variant): early `[]` when no section-1
bubble exists, otherwise one answer per question 1..40. -/
def detectSection1Answers (conf : Bubble → ℚ) (bubbles : List Bubble) : List String :=
  if section1Bubbles bubbles = [] then []
  else
    (List.range 40).map fun (i : ℕ) =>
      let q := i + 1
      if questionBubbles bubbles q = [] then ""
      else (bestScan conf (questionBubbles bubbles q)).2

/-- The student-ID bubbles, as filtered by `detectStudentId`. -/
def studentIdBubbles (bubbles : List Bubble) : List Bubble :=
  bubbles.filter fun b => b.«section» == some "studentId"

/-- The student-ID bubbles of digit column `col`. -/
def columnBubbles (bubbles : List Bubble) (col : ℕ) : List Bubble :=
  (studentIdBubbles bubbles).filter fun b => b.column == some col

/-- The inner loop of `detectStudentId` for one column: the first bubble
whose confidence exceeds 0.4 and whose `row` is defined contributes
`row.toString()`; otherwise the column contributes nothing. -/
def columnDigit (conf : Bubble → ℚ) (bubbles : List Bubble) (col : ℕ) : String :=
  match (columnBubbles bubbles col).find? (fun b => decide (conf b > 2/5) && b.row.isSome) with
  | some b => toString (b.row.getD 0)
  | none => ""

/-- `detectStudentId` (main variant): columns 0..8 scanned in order; an
empty accumulated id falls back to `"UNKNOWN"`. -/
def detectStudentId (conf : Bubble → ℚ) (bubbles : List Bubble) : String :=
  if studentIdBubbles bubbles = [] then "UNKNOWN"
  else
    let id := String.join ((List.range 9).map fun (col : ℕ) => columnDigit conf bubbles col)
    if id = "" then "UNKNOWN" else id

/-- The section-2 bubbles, as filtered by `detectSection2Answers`. -/
def section2Bubbles (bubbles : List Bubble) : List Bubble :=
  bubbles.filter fun b => b.«section» == some "section2"

/-- The section-2 bubbles grouped under `(question, subOption)`; bubbles
with an undefined `question` or `subOption` are not grouped. -/
def subOptionBubbles (bubbles : List Bubble) (q : ℕ) (sub : String) : List Bubble :=
  (section2Bubbles bubbles).filter fun b => b.question == some q && b.subOption == some sub

/-- The inner loop of `detectSection2Answers` for one sub-option: the first
bubble whose confidence exceeds 0.4 decides; its `value` is taken when
defined (the answer stays at the default `false` otherwise or when no
bubble passes). -/
def resolveSub (conf : Bubble → ℚ) (bs : List Bubble) : Bool :=
  match bs.find? (fun b => decide (conf b > 2/5)) with
  | some b => b.value.getD false
  | none => false

/-- One section-2 answer record `{a, b, c, d}`. -/
structure S2Answer where
  a : Bool
  b : Bool
  c : Bool
  d : Bool
deriving DecidableEq

/-- `detectSection2Answers` (main variant): early `[]` when no section-2
bubble exists, otherwise one record per question 1..8, each sub-option
resolved independently over its own bubble group. -/
def detectSection2Answers (conf : Bubble → ℚ) (bubbles : List Bubble) : List S2Answer :=
  if section2Bubbles bubbles = [] then []
  else
    (List.range 8).map fun (i : ℕ) =>
      let q := i + 1
      { a := resolveSub conf (subOptionBubbles bubbles q "a")
        b := resolveSub conf (subOptionBubbles bubbles q "b")
        c := resolveSub conf (subOptionBubbles bubbles q "c")
        d := resolveSub conf (subOptionBubbles bubbles q "d") }

/-- The section-3 bubbles, as filtered by `detectSection3Answers`. -/
def section3Bubbles (bubbles : List Bubble) : List Bubble :=
  bubbles.filter fun b => b.«section» == some "section3"

/-- The section-3 bubbles grouped under question `q`. -/
def question3Bubbles (bubbles : List Bubble) (q : ℕ) : List Bubble :=
  (section3Bubbles bubbles).filter fun b => b.question == some q

/-- One step of the section-3 selection loop (`bubble.digit?.toString() ||
''` for the recorded answer). -/
def s3Step (conf : Bubble → ℚ) (best : ℚ × String) (b : Bubble) : ℚ × String :=
  if conf b > best.1 ∧ conf b > 2/5 then
    (conf b, (b.digit.map toString).getD "")
  else best

/-- The inner loop of `detectSection3Answers` for one question. -/
def bestDigitScan (conf : Bubble → ℚ) (bs : List Bubble) : ℚ × String :=
  bs.foldl (s3Step conf) (0, "")

/-- `detectSection3Answers` (main variant): one answer per question 1..6. -/
def detectSection3Answers (conf : Bubble → ℚ) (bubbles : List Bubble) : List String :=
  if section3Bubbles bubbles = [] then []
  else
    (List.range 6).map fun (i : ℕ) =>
      let q := i + 1
      if question3Bubbles bubbles q = [] then ""
      else (bestDigitScan conf (question3Bubbles bubbles q)).2

/-- The `ProcessingResult` record (debug image URL omitted: pure UI). -/
structure ProcessingResult where
  studentId : String
  phanI : List String
  phanII : List S2Answer
  phanIII : List String
  confidence : ℚ

/-- The recognition part of `processWithOpenCV` (main variant), from the
marker-detection output onwards: build the bubble grid and run the four
extractors; the result's `confidence` is the literal `0.85`.  The
grayscale image enters only through `conf` (see the header). -/
def processWithOpenCV (markers : Markers) (imageWidth imageHeight : ℚ)
    (conf : Bubble → ℚ) : ProcessingResult :=
  let bubbles := generateBubbleGrid markers imageWidth imageHeight
  { studentId := detectStudentId conf bubbles
    phanI := detectSection1Answers conf bubbles
    phanII := detectSection2Answers conf bubbles
    phanIII := detectSection3Answers conf bubbles
    confidence := 85/100 }

/-- One section of the persisted `TestConfig` (the answer lists play no
role in recognition and are carried only for completeness). -/
structure SectionConfigS where
  questionCount : ℕ
  answers : List String := []

/-- Section-2 flavour of the config (boolean answer records). -/
structure SectionConfigB where
  questionCount : ℕ
  answers : List S2Answer := []

/-- The `TestConfig` record read from storage by `getTestConfig`. -/
structure TestConfig where
  phanI : SectionConfigS
  phanII : SectionConfigB
  phanIII : SectionConfigS

/-- The default configuration returned by `getTestConfig` when nothing is
stored: 40 / 8 / 6 questions. -/
def defaultTestConfig : TestConfig :=
  { phanI := { questionCount := 40 }
    phanII := { questionCount := 8 }
    phanIII := { questionCount := 6 } }

/-- An integer point as stored in a `CV_32SC2` contour matrix. -/
structure P2 where
  x : ℤ
  y : ℤ
deriving DecidableEq

/-- `sum = x + y` as computed by `reorder`. -/
def psum (p : P2) : ℤ := p.x + p.y

/-- `diff = y - x` as computed by `reorder` (`p[1] - p[0]`). -/
def pdiff (p : P2) : ℤ := p.y - p.x

/-- `Math.min(...l)` over integers (nonempty in every use below). -/
def jsMinZ (l : List ℤ) : ℤ :=
  match l with
  | [] => 0
  | a :: r => r.foldl min a

/-- `Math.max(...l)` over integers. -/
def jsMaxZ (l : List ℤ) : ℤ :=
  match l with
  | [] => 0
  | a :: r => r.foldl max a

/-- `Array.prototype.indexOf`: index of the first occurrence.  The JS `-1`
for a missing value is unreachable in `reorder` (the searched value is
always the min/max of the list itself), so the `[]` case is arbitrary. -/
def idxOf (l : List ℤ) (v : ℤ) : ℕ :=
  match l with
  | [] => 0
  | a :: r => if a = v then 0 else idxOf r v + 1

/-- `reorder` from the OpenCV utility module, for a 4-point contour: the
output order is `[minSum, minDiff, maxDiff, maxSum]`, i.e. `[top-left,
top-right, bottom-left, bottom-right]`. -/
def reorder (p0 p1 p2 p3 : P2) : List P2 :=
  let pts := [p0, p1, p2, p3]
  let sums := pts.map psum
  let diffs := pts.map pdiff
  let minSumIdx := idxOf sums (jsMinZ sums)
  let maxSumIdx := idxOf sums (jsMaxZ sums)
  let minDiffIdx := idxOf diffs (jsMinZ diffs)
  let maxDiffIdx := idxOf diffs (jsMaxZ diffs)
  [pts.getD minSumIdx ⟨0, 0⟩, pts.getD minDiffIdx ⟨0, 0⟩,
   pts.getD maxDiffIdx ⟨0, 0⟩, pts.getD maxSumIdx ⟨0, 0⟩]

/-! Concrete fixtures used by witnesses and counterexamples. -/

/-- A marker-detection result with no corner markers (forces the fallback
grid). -/
def noMarkers : Markers := { corners := [], edges := [] }

/-- A confidence oracle that marks nothing. -/
def zeroConf : Bubble → ℚ := fun _ => 0

/-- A blank bubble record with the given metadata left to fill in. -/
def blankBubble : Bubble :=
  { x := 0, y := 0, width := 1, height := 1, area := 1, circularity := 4/5 }

/-- Four option bubbles of section-1 question 1 (A–D). -/
def w5bubbles : List Bubble :=
  [{ blankBubble with «section» := some "section1", question := some 1, option := some "A" },
   { blankBubble with «section» := some "section1", question := some 1, option := some "B" },
   { blankBubble with «section» := some "section1", question := some 1, option := some "C" },
   { blankBubble with «section» := some "section1", question := some 1, option := some "D" }]

/-- The B-option bubble of `w5bubbles` (the 0.72 one). -/
def w5bB : Bubble :=
  { blankBubble with
    «section» := some "section1"
    question := some 1
    option := some "B" }

/-- The spec's tie-break scenario: A at 0.55, B at 0.72, the rest low. -/
def w5conf : Bubble → ℚ := fun b =>
  if b.option == some "B" then 72/100
  else if b.option == some "A" then 55/100
  else 1/10

/-- Student-ID bubble, column 0, row 0. -/
def c6b0 : Bubble :=
  { blankBubble with «section» := some "studentId", column := some 0, row := some 0 }

/-- Student-ID bubble, column 0, row 1. -/
def c6b1 : Bubble :=
  { blankBubble with «section» := some "studentId", column := some 0, row := some 1 }

/-- A two-row student-ID column. -/
def c6bubbles : List Bubble := [c6b0, c6b1]

/-- Row 0 at confidence 0.5, row 1 at confidence 0.9: both exceed 0.4 and
row 1 has the higher confidence. -/
def c6conf : Bubble → ℚ := fun b => if b.row == some 1 then 9/10 else 1/2

/-- Section-2 question 1, sub-option a, true-state (Đúng) bubble. -/
def c7bTrue : Bubble :=
  { blankBubble with
    «section» := some "section2"
    question := some 1
    subOption := some "a"
    value := some true }

/-- Section-2 question 1, sub-option a, false-state (Sai) bubble. -/
def c7bFalse : Bubble :=
  { blankBubble with
    «section» := some "section2"
    question := some 1
    subOption := some "a"
    value := some false }

/-- The two candidate bubbles of one sub-option, true-state first (the
generation order of `generateSection2Bubbles`). -/
def c7bubbles : List Bubble := [c7bTrue, c7bFalse]

/-- True-state at 0.5, false-state at 0.9: both exceed 0.4 and the
false-state candidate has the higher confidence. -/
def c7conf : Bubble → ℚ := fun b => if b.value == some false then 9/10 else 1/2

/-- A 10×10 uniform grayscale image. -/
def c8img : GrayImage := { rows := 10, cols := 10, pixel := fun _ _ => 200 }

/-- A bubble region wider than `c8img`: its extraction fails (even before
padding). -/
def c8rect : RoiRect := { x := 0, y := 0, width := 20, height := 5 }

/-! Helper lemmas shared by the claim theorems. -/

lemma filter_ne_nil_of_any {α : Type} {l : List α} {p : α → Bool}
    (h : l.any p = true) : l.filter p ≠ [] := by
  rcases List.any_eq_true.mp h with ⟨b, hb, hpb⟩
  exact List.ne_nil_of_mem (List.mem_filter.mpr ⟨hb, hpb⟩)

lemma grid_s1_ne (markers : Markers) (w h : ℚ) :
    section1Bubbles (generateBubbleGrid markers w h) ≠ [] := by
  unfold section1Bubbles generateBubbleGrid
  by_cases hc : markers.corners.length < 4
  · rw [if_pos hc]; exact filter_ne_nil_of_any (by rfl)
  · rw [if_neg hc]; exact filter_ne_nil_of_any (by rfl)

lemma grid_s2_ne (markers : Markers) (w h : ℚ) :
    section2Bubbles (generateBubbleGrid markers w h) ≠ [] := by
  unfold section2Bubbles generateBubbleGrid
  by_cases hc : markers.corners.length < 4
  · rw [if_pos hc]; exact filter_ne_nil_of_any (by rfl)
  · rw [if_neg hc]; exact filter_ne_nil_of_any (by rfl)

lemma grid_s3_ne (markers : Markers) (w h : ℚ) :
    section3Bubbles (generateBubbleGrid markers w h) ≠ [] := by
  unfold section3Bubbles generateBubbleGrid
  by_cases hc : markers.corners.length < 4
  · rw [if_pos hc]; exact filter_ne_nil_of_any (by rfl)
  · rw [if_neg hc]; exact filter_ne_nil_of_any (by rfl)

lemma detectSection1_length (conf : Bubble → ℚ) (bubbles : List Bubble)
    (h : section1Bubbles bubbles ≠ []) :
    (detectSection1Answers conf bubbles).length = 40 := by
  unfold detectSection1Answers
  rw [if_neg h]
  simp

lemma detectSection2_length (conf : Bubble → ℚ) (bubbles : List Bubble)
    (h : section2Bubbles bubbles ≠ []) :
    (detectSection2Answers conf bubbles).length = 8 := by
  unfold detectSection2Answers
  rw [if_neg h]
  simp

lemma detectSection3_length (conf : Bubble → ℚ) (bubbles : List Bubble)
    (h : section3Bubbles bubbles ≠ []) :
    (detectSection3Answers conf bubbles).length = 6 := by
  unfold detectSection3Answers
  rw [if_neg h]
  simp

lemma process_lengths (markers : Markers) (w h : ℚ) (conf : Bubble → ℚ) :
    (processWithOpenCV markers w h conf).phanI.length = 40 ∧
    (processWithOpenCV markers w h conf).phanII.length = 8 ∧
    (processWithOpenCV markers w h conf).phanIII.length = 6 := by
  refine ⟨?_, ?_, ?_⟩
  · exact detectSection1_length conf _ (grid_s1_ne markers w h)
  · exact detectSection2_length conf _ (grid_s2_ne markers w h)
  · exact detectSection3_length conf _ (grid_s3_ne markers w h)

/-- C1 (counterexample): the extractor ignores the configured question
counts.  With section-1 configured to 5 questions, the section-1 answer
array still has 40 entries, so its length differs from the configured
count. -/
theorem C1_counterexample :
    (processWithOpenCV noMarkers 1000 1000 zeroConf).phanI.length = 40 ∧
    ({ phanI := { questionCount := 5 }, phanII := { questionCount := 8 },
       phanIII := { questionCount := 6 } } : TestConfig).phanI.questionCount = 5 ∧
    (processWithOpenCV noMarkers 1000 1000 zeroConf).phanI.length ≠
      ({ phanI := { questionCount := 5 }, phanII := { questionCount := 8 },
         phanIII := { questionCount := 6 } } : TestConfig).phanI.questionCount := by
  have h := process_lengths noMarkers 1000 1000 zeroConf
  refine ⟨h.1, rfl, ?_⟩
  rw [h.1]
  decide

/-- C1 (amended): for every marker-detection result, image size and
confidence oracle, the recognition result has `phanI.length = 40`,
`phanII.length = 8` and `phanIII.length = 6` — the fixed counts of the
default configuration, independent of the stored configuration (which the
extractors never read).  Every `phanII` element carries all four booleans by
construction (`S2Answer` has the four fields). -/
theorem C1_shape (markers : Markers) (w h : ℚ) (conf : Bubble → ℚ) :
    (processWithOpenCV markers w h conf).phanI.length = 40 ∧
    (processWithOpenCV markers w h conf).phanII.length = 8 ∧
    (processWithOpenCV markers w h conf).phanIII.length = 6 :=
  process_lengths markers w h conf

/-- C3 (counterexample): a sub-image with pixel values 0 and 16 has
variance 64 > 50, yet the classifier returns the raw `1 - mean/255`,
not a dampened value: the dampening is NOT triggered by variance > 50. -/
theorem C3_counterexample :
    variance [(0 : ℚ), 16] > 50 ∧
    isBubbleFilledCore [(0 : ℚ), 16] = 1 - mean [(0 : ℚ), 16] / 255 ∧
    isBubbleFilledCore [(0 : ℚ), 16] ≠
      max (3/10) ((1 - mean [(0 : ℚ), 16] / 255) - 1/10) := by
  have hm : mean [(0 : ℚ), 16] = 8 := by norm_num [mean]
  have hv : variance [(0 : ℚ), 16] = 64 := by norm_num [variance, hm]
  have hcore : isBubbleFilledCore [(0 : ℚ), 16] = 1 - mean [(0 : ℚ), 16] / 255 := by
    simp only [isBubbleFilledCore]
    rw [if_neg (by rw [hv]; norm_num)]
  refine ⟨by rw [hv]; norm_num, hcore, ?_⟩
  rw [hcore, hm]
  have hmax : max ((3 : ℚ)/10) ((1 - 8 / 255) - 1/10) = (1 - 8 / 255) - 1/10 :=
    max_eq_right (by norm_num)
  rw [hmax]
  norm_num

/-- C3 (amended): the classifier returns `1 - m/255` (with `m` the mean of
the padded, blurred sub-image) whenever the variance is at most 2500
(standard deviation at most 50), and `max 0.3 ((1 - m/255) - 0.1)` — the
dampening toward the neutral 0.3 — whenever the variance exceeds 2500
(standard deviation exceeds 50). -/
theorem C3_fill_confidence (ps : List ℚ) :
    (variance ps ≤ 2500 → isBubbleFilledCore ps = 1 - mean ps / 255) ∧
    (2500 < variance ps →
      isBubbleFilledCore ps = max (3/10) ((1 - mean ps / 255) - 1/10)) := by
  constructor <;> intro h
  · simp only [isBubbleFilledCore]
    rw [if_neg (not_lt.mpr h)]
  · simp only [isBubbleFilledCore]
    rw [if_pos h]

/-- C3 (witness): the low-variance branch evaluated on the one-pixel
sub-image `[0]`. -/
theorem C3_witness : isBubbleFilledCore [(0 : ℚ)] = 1 - mean [(0 : ℚ)] / 255 :=
  (C3_fill_confidence [(0 : ℚ)]).1 (by norm_num [variance, mean])

/-- C4 (counterexample): in the dampened (high-variance) regime the clamp
at 0.3 breaks strictness: two same-size regions, both with variance above
2500, means 204 and 153 (strictly darker), get the same confidence 0.3. -/
theorem C4_counterexample :
    [(0 : ℚ), 0, 255, 255, 255].length = [(0 : ℚ), 255, 255, 255, 255].length ∧
    variance [(0 : ℚ), 255, 255, 255, 255] > 2500 ∧
    variance [(0 : ℚ), 0, 255, 255, 255] > 2500 ∧
    mean [(0 : ℚ), 0, 255, 255, 255] < mean [(0 : ℚ), 255, 255, 255, 255] ∧
    isBubbleFilledCore [(0 : ℚ), 0, 255, 255, 255] =
      isBubbleFilledCore [(0 : ℚ), 255, 255, 255, 255] := by
  have hm1 : mean [(0 : ℚ), 255, 255, 255, 255] = 204 := by norm_num [mean]
  have hm2 : mean [(0 : ℚ), 0, 255, 255, 255] = 153 := by norm_num [mean]
  have hv1 : variance [(0 : ℚ), 255, 255, 255, 255] = 10404 := by
    norm_num [variance, hm1]
  have hv2 : variance [(0 : ℚ), 0, 255, 255, 255] = 15606 := by
    norm_num [variance, hm2]
  refine ⟨rfl, by rw [hv1]; norm_num, by rw [hv2]; norm_num,
    by rw [hm1, hm2]; norm_num, ?_⟩
  simp only [isBubbleFilledCore]
  rw [if_pos (by rw [hv2]; norm_num), if_pos (by rw [hv1]; norm_num), hm2, hm1]
  have h1 : max ((3 : ℚ)/10) ((1 - 204 / 255) - 1/10) = 3/10 :=
    max_eq_left (by norm_num)
  have h2 : max ((3 : ℚ)/10) ((1 - 153 / 255) - 1/10) = 3/10 :=
    max_eq_left (by norm_num)
  rw [h1, h2]

/-- C4 (amended): holding region size fixed, strictly decreasing the mean
strictly increases the confidence in the undampened regime (both variances
at most 2500); in the dampened regime (both variances above 2500) the
confidence increases only non-strictly. -/
theorem C4_monotonicity (ps qs : List ℚ) (_hlen : ps.length = qs.length) :
    (variance ps ≤ 2500 → variance qs ≤ 2500 → mean qs < mean ps →
      isBubbleFilledCore ps < isBubbleFilledCore qs) ∧
    (2500 < variance ps → 2500 < variance qs → mean qs ≤ mean ps →
      isBubbleFilledCore ps ≤ isBubbleFilledCore qs) := by
  constructor
  · intro hp hq hm
    simp only [isBubbleFilledCore]
    rw [if_neg (not_lt.mpr hp), if_neg (not_lt.mpr hq)]
    linarith
  · intro hp hq hm
    simp only [isBubbleFilledCore]
    rw [if_pos hp, if_pos hq]
    exact max_le_max le_rfl (by linarith)

/-- C4 (witness): the strict clause evaluated on the one-pixel regions
`[10]` (lighter) and `[0]` (darker). -/
theorem C4_witness : isBubbleFilledCore [(10 : ℚ)] < isBubbleFilledCore [(0 : ℚ)] :=
  (C4_monotonicity [(10 : ℚ)] [(0 : ℚ)] rfl).1 (by norm_num [variance, mean])
    (by norm_num [variance, mean]) (by norm_num [mean])

/-- C8 (counterexample): the `test-scoring-app` classifier cited by the
claim returns 0.5, not 0.0, when region extraction fails (region wider
than the image). -/
theorem C8_counterexample :
    isBubbleFilledLegacy c8img c8rect = 1/2 ∧ ((1 : ℚ)/2) ≠ 0 := by
  constructor
  · simp only [isBubbleFilledLegacy]
    rw [if_neg (by decide)]
  · norm_num

/-- C8 (amended): when extracting the (padded) region fails, the main
classifier returns exactly 0.0; the earlier `test-scoring-app` classifier
instead returns 0.5.  Both are total functions: the failure is absorbed,
never propagated. -/
theorem C8_extraction_failure (img : GrayImage) (b : RoiRect) :
    (¬ roiInBounds img (padRect b) → isBubbleFilled img b = 0) ∧
    (¬ roiInBounds img b → isBubbleFilledLegacy img b = 1/2) := by
  constructor <;> intro h
  · simp only [isBubbleFilled]
    rw [if_neg h]
  · simp only [isBubbleFilledLegacy]
    rw [if_neg h]

/-- C8 (witness): both failure branches evaluated on a concrete
out-of-bounds region of a 10×10 image. -/
theorem C8_witness :
    isBubbleFilled c8img c8rect = 0 ∧ isBubbleFilledLegacy c8img c8rect = 1/2 :=
  ⟨(C8_extraction_failure c8img c8rect).1 (by decide),
   (C8_extraction_failure c8img c8rect).2 (by decide)⟩

/-- C10: the recognition result's overall confidence is the constant 0.85,
for every marker-detection result, image size and confidence oracle — in
particular it does not depend on how many questions were resolved. -/
theorem C10_constant_confidence (markers : Markers) (w h : ℚ)
    (conf conf' : Bubble → ℚ) :
    (processWithOpenCV markers w h conf).confidence = 85/100 ∧
    (processWithOpenCV markers w h conf).confidence =
      (processWithOpenCV markers w h conf').confidence :=
  ⟨rfl, rfl⟩

lemma jsMinZ_four (s0 s1 s2 s3 : ℤ) :
    jsMinZ [s0, s1, s2, s3] = min (min (min s0 s1) s2) s3 := rfl

lemma jsMaxZ_four (s0 s1 s2 s3 : ℤ) :
    jsMaxZ [s0, s1, s2, s3] = max (max (max s0 s1) s2) s3 := rfl

lemma getD_idxOf (p0 p1 p2 p3 : P2) (f : P2 → ℤ) (m : ℤ)
    (hm : m = f p0 ∨ m = f p1 ∨ m = f p2 ∨ m = f p3) :
    [p0, p1, p2, p3].getD (idxOf ([p0, p1, p2, p3].map f) m) ⟨0, 0⟩ ∈ [p0, p1, p2, p3] ∧
    f ([p0, p1, p2, p3].getD (idxOf ([p0, p1, p2, p3].map f) m) ⟨0, 0⟩) = m := by
  by_cases h0 : f p0 = m
  · simp [idxOf, h0]
  · by_cases h1 : f p1 = m
    · simp [idxOf, h0, h1]
    · by_cases h2 : f p2 = m
      · simp [idxOf, h0, h1, h2]
      · by_cases h3 : f p3 = m
        · simp [idxOf, h0, h1, h2, h3]
        · rcases hm with h | h | h | h <;> simp_all

/-- C2: for four points with pairwise-distinct coordinate sums and
pairwise-distinct coordinate differences, `reorder` returns the points in
the order `[top-left, top-right, bottom-left, bottom-right]`: position 0 is
the (unique) point of minimum `x+y`, position 1 of minimum `y-x`, position
2 of maximum `y-x`, position 3 of maximum `x+y`. -/
theorem C2_reorder_corners (p0 p1 p2 p3 : P2)
    (hs : (([p0, p1, p2, p3]).map psum).Pairwise (fun a b => a ≠ b))
    (hd : (([p0, p1, p2, p3]).map pdiff).Pairwise (fun a b => a ≠ b)) :
    ∃ tl tr bl br : P2,
      reorder p0 p1 p2 p3 = [tl, tr, bl, br] ∧
      (tl ∈ [p0, p1, p2, p3] ∧ ∀ p ∈ [p0, p1, p2, p3], psum tl ≤ psum p) ∧
      (tr ∈ [p0, p1, p2, p3] ∧ ∀ p ∈ [p0, p1, p2, p3], pdiff tr ≤ pdiff p) ∧
      (bl ∈ [p0, p1, p2, p3] ∧ ∀ p ∈ [p0, p1, p2, p3], pdiff p ≤ pdiff bl) ∧
      (br ∈ [p0, p1, p2, p3] ∧ ∀ p ∈ [p0, p1, p2, p3], psum p ≤ psum br) ∧
      (∀ p ∈ [p0, p1, p2, p3], (∀ q ∈ [p0, p1, p2, p3], psum p ≤ psum q) → p = tl) ∧
      (∀ p ∈ [p0, p1, p2, p3], (∀ q ∈ [p0, p1, p2, p3], pdiff p ≤ pdiff q) → p = tr) ∧
      (∀ p ∈ [p0, p1, p2, p3], (∀ q ∈ [p0, p1, p2, p3], pdiff q ≤ pdiff p) → p = bl) ∧
      (∀ p ∈ [p0, p1, p2, p3], (∀ q ∈ [p0, p1, p2, p3], psum q ≤ psum p) → p = br) := by
  have hs' : ∀ a ∈ [p0, p1, p2, p3], ∀ b ∈ [p0, p1, p2, p3], a ≠ b → psum a ≠ psum b := by
    rw [List.pairwise_map] at hs
    exact fun a ha b hb hab => hs.forall (fun x y hxy => hxy.symm) ha hb hab
  have hd' : ∀ a ∈ [p0, p1, p2, p3], ∀ b ∈ [p0, p1, p2, p3], a ≠ b → pdiff a ≠ pdiff b := by
    rw [List.pairwise_map] at hd
    exact fun a ha b hb hab => hd.forall (fun x y hxy => hxy.symm) ha hb hab
  have hmapS : [p0, p1, p2, p3].map psum = [psum p0, psum p1, psum p2, psum p3] := rfl
  have hmapD : [p0, p1, p2, p3].map pdiff = [pdiff p0, pdiff p1, pdiff p2, pdiff p3] := rfl
  have hminS : jsMinZ ([p0, p1, p2, p3].map psum) = psum p0 ∨
      jsMinZ ([p0, p1, p2, p3].map psum) = psum p1 ∨
      jsMinZ ([p0, p1, p2, p3].map psum) = psum p2 ∨
      jsMinZ ([p0, p1, p2, p3].map psum) = psum p3 := by
    rw [hmapS, jsMinZ_four]; omega
  have hmaxS : jsMaxZ ([p0, p1, p2, p3].map psum) = psum p0 ∨
      jsMaxZ ([p0, p1, p2, p3].map psum) = psum p1 ∨
      jsMaxZ ([p0, p1, p2, p3].map psum) = psum p2 ∨
      jsMaxZ ([p0, p1, p2, p3].map psum) = psum p3 := by
    rw [hmapS, jsMaxZ_four]; omega
  have hminD : jsMinZ ([p0, p1, p2, p3].map pdiff) = pdiff p0 ∨
      jsMinZ ([p0, p1, p2, p3].map pdiff) = pdiff p1 ∨
      jsMinZ ([p0, p1, p2, p3].map pdiff) = pdiff p2 ∨
      jsMinZ ([p0, p1, p2, p3].map pdiff) = pdiff p3 := by
    rw [hmapD, jsMinZ_four]; omega
  have hmaxD : jsMaxZ ([p0, p1, p2, p3].map pdiff) = pdiff p0 ∨
      jsMaxZ ([p0, p1, p2, p3].map pdiff) = pdiff p1 ∨
      jsMaxZ ([p0, p1, p2, p3].map pdiff) = pdiff p2 ∨
      jsMaxZ ([p0, p1, p2, p3].map pdiff) = pdiff p3 := by
    rw [hmapD, jsMaxZ_four]; omega
  obtain ⟨htlm, htlv⟩ := getD_idxOf p0 p1 p2 p3 psum _ hminS
  obtain ⟨htrm, htrv⟩ := getD_idxOf p0 p1 p2 p3 pdiff _ hminD
  obtain ⟨hblm, hblv⟩ := getD_idxOf p0 p1 p2 p3 pdiff _ hmaxD
  obtain ⟨hbrm, hbrv⟩ := getD_idxOf p0 p1 p2 p3 psum _ hmaxS
  have hminS_le : ∀ p ∈ [p0, p1, p2, p3], jsMinZ ([p0, p1, p2, p3].map psum) ≤ psum p := by
    intro p hp
    rw [hmapS, jsMinZ_four]
    rcases List.mem_cons.mp hp with h | hp <;>
      [skip; rcases List.mem_cons.mp hp with h | hp] <;>
      [skip; skip; rcases List.mem_cons.mp hp with h | hp] <;>
      [skip; skip; skip; rcases List.mem_cons.mp hp with h | hp] <;>
      first
      | (subst h; omega)
      | simp at hp
  have hmaxS_le : ∀ p ∈ [p0, p1, p2, p3], psum p ≤ jsMaxZ ([p0, p1, p2, p3].map psum) := by
    intro p hp
    rw [hmapS, jsMaxZ_four]
    rcases List.mem_cons.mp hp with h | hp <;>
      [skip; rcases List.mem_cons.mp hp with h | hp] <;>
      [skip; skip; rcases List.mem_cons.mp hp with h | hp] <;>
      [skip; skip; skip; rcases List.mem_cons.mp hp with h | hp] <;>
      first
      | (subst h; omega)
      | simp at hp
  have hminD_le : ∀ p ∈ [p0, p1, p2, p3], jsMinZ ([p0, p1, p2, p3].map pdiff) ≤ pdiff p := by
    intro p hp
    rw [hmapD, jsMinZ_four]
    rcases List.mem_cons.mp hp with h | hp <;>
      [skip; rcases List.mem_cons.mp hp with h | hp] <;>
      [skip; skip; rcases List.mem_cons.mp hp with h | hp] <;>
      [skip; skip; skip; rcases List.mem_cons.mp hp with h | hp] <;>
      first
      | (subst h; omega)
      | simp at hp
  have hmaxD_le : ∀ p ∈ [p0, p1, p2, p3], pdiff p ≤ jsMaxZ ([p0, p1, p2, p3].map pdiff) := by
    intro p hp
    rw [hmapD, jsMaxZ_four]
    rcases List.mem_cons.mp hp with h | hp <;>
      [skip; rcases List.mem_cons.mp hp with h | hp] <;>
      [skip; skip; rcases List.mem_cons.mp hp with h | hp] <;>
      [skip; skip; skip; rcases List.mem_cons.mp hp with h | hp] <;>
      first
      | (subst h; omega)
      | simp at hp
  refine ⟨_, _, _, _, rfl, ⟨htlm, ?_⟩, ⟨htrm, ?_⟩, ⟨hblm, ?_⟩, ⟨hbrm, ?_⟩, ?_, ?_, ?_, ?_⟩
  · intro p hp; exact htlv.le.trans (hminS_le p hp)
  · intro p hp; exact htrv.le.trans (hminD_le p hp)
  · intro p hp; exact (hmaxD_le p hp).trans hblv.ge
  · intro p hp; exact (hmaxS_le p hp).trans hbrv.ge
  · intro p hp hmin
    by_contra hne
    exact hs' p hp _ htlm hne
      (le_antisymm (hmin _ htlm) (htlv.le.trans (hminS_le p hp)))
  · intro p hp hmin
    by_contra hne
    exact hd' p hp _ htrm hne
      (le_antisymm (hmin _ htrm) (htrv.le.trans (hminD_le p hp)))
  · intro p hp hmax
    by_contra hne
    exact hd' p hp _ hblm hne
      (le_antisymm ((hmaxD_le p hp).trans hblv.ge) (hmax _ hblm))
  · intro p hp hmax
    by_contra hne
    exact hs' p hp _ hbrm hne
      (le_antisymm ((hmaxS_le p hp).trans hbrv.ge) (hmax _ hbrm))

/-- C2 (witness): the reordering at the concrete quadrilateral
(0,0), (9,1), (1,10), (11,12), whose sums and diffs are pairwise distinct. -/
theorem C2_witness :
    ∃ tl tr bl br : P2,
      reorder ⟨0, 0⟩ ⟨9, 1⟩ ⟨1, 10⟩ ⟨11, 12⟩ = [tl, tr, bl, br] ∧
      (tl ∈ [(⟨0, 0⟩ : P2), ⟨9, 1⟩, ⟨1, 10⟩, ⟨11, 12⟩] ∧
        ∀ p ∈ [(⟨0, 0⟩ : P2), ⟨9, 1⟩, ⟨1, 10⟩, ⟨11, 12⟩], psum tl ≤ psum p) ∧
      (tr ∈ [(⟨0, 0⟩ : P2), ⟨9, 1⟩, ⟨1, 10⟩, ⟨11, 12⟩] ∧
        ∀ p ∈ [(⟨0, 0⟩ : P2), ⟨9, 1⟩, ⟨1, 10⟩, ⟨11, 12⟩], pdiff tr ≤ pdiff p) ∧
      (bl ∈ [(⟨0, 0⟩ : P2), ⟨9, 1⟩, ⟨1, 10⟩, ⟨11, 12⟩] ∧
        ∀ p ∈ [(⟨0, 0⟩ : P2), ⟨9, 1⟩, ⟨1, 10⟩, ⟨11, 12⟩], pdiff p ≤ pdiff bl) ∧
      (br ∈ [(⟨0, 0⟩ : P2), ⟨9, 1⟩, ⟨1, 10⟩, ⟨11, 12⟩] ∧
        ∀ p ∈ [(⟨0, 0⟩ : P2), ⟨9, 1⟩, ⟨1, 10⟩, ⟨11, 12⟩], psum p ≤ psum br) ∧
      (∀ p ∈ [(⟨0, 0⟩ : P2), ⟨9, 1⟩, ⟨1, 10⟩, ⟨11, 12⟩],
        (∀ q ∈ [(⟨0, 0⟩ : P2), ⟨9, 1⟩, ⟨1, 10⟩, ⟨11, 12⟩], psum p ≤ psum q) → p = tl) ∧
      (∀ p ∈ [(⟨0, 0⟩ : P2), ⟨9, 1⟩, ⟨1, 10⟩, ⟨11, 12⟩],
        (∀ q ∈ [(⟨0, 0⟩ : P2), ⟨9, 1⟩, ⟨1, 10⟩, ⟨11, 12⟩], pdiff p ≤ pdiff q) → p = tr) ∧
      (∀ p ∈ [(⟨0, 0⟩ : P2), ⟨9, 1⟩, ⟨1, 10⟩, ⟨11, 12⟩],
        (∀ q ∈ [(⟨0, 0⟩ : P2), ⟨9, 1⟩, ⟨1, 10⟩, ⟨11, 12⟩], pdiff q ≤ pdiff p) → p = bl) ∧
      (∀ p ∈ [(⟨0, 0⟩ : P2), ⟨9, 1⟩, ⟨1, 10⟩, ⟨11, 12⟩],
        (∀ q ∈ [(⟨0, 0⟩ : P2), ⟨9, 1⟩, ⟨1, 10⟩, ⟨11, 12⟩], psum q ≤ psum p) → p = br) :=
  C2_reorder_corners ⟨0, 0⟩ ⟨9, 1⟩ ⟨1, 10⟩ ⟨11, 12⟩ (by decide) (by decide)

lemma getD_range_map {α : Type} (n k : ℕ) (f : ℕ → α) (d : α) (h : k < n) :
    ((List.range n).map f).getD k d = f k := by
  simp [List.getD_eq_getElem?_getD, List.getElem?_map, List.getElem?_range, h]

lemma find?_first {α : Type} (p : α → Bool) :
    ∀ (pre : List α) (b : α) (post : List α),
      (∀ a ∈ pre, p a = false) → p b = true →
      (pre ++ b :: post).find? p = some b := by
  intro pre
  induction pre with
  | nil =>
    intro b post _ hb
    simp [List.find?, hb]
  | cons a rest ih =>
    intro b post hpre hb
    have ha : p a = false := hpre a (List.mem_cons_self a rest)
    simp only [List.cons_append, List.find?, ha]
    exact ih b post (fun a' ha' => hpre a' (List.mem_cons_of_mem a ha')) hb

/-- The loop invariant of the section-1 selection fold: either nothing ever
beat the accumulator (which is then returned unchanged), or the result is
the qualifying bubble of maximal confidence among the scanned ones. -/
lemma bestScan_inv (conf : Bubble → ℚ) :
    ∀ (bs : List Bubble) (c : ℚ) (s : String),
      (bs.foldl (s1Step conf) (c, s) = (c, s) ∧
        ∀ b ∈ bs, ¬(conf b > c ∧ conf b > 2/5 ∧ b.option.getD "" ≠ "")) ∨
      (∃ b ∈ bs, (conf b > 2/5 ∧ b.option.getD "" ≠ "") ∧
        (bs.foldl (s1Step conf) (c, s)).1 = conf b ∧
        (bs.foldl (s1Step conf) (c, s)).2 = b.option.getD "" ∧ c < conf b ∧
        ∀ b' ∈ bs, (conf b' > 2/5 ∧ b'.option.getD "" ≠ "") → conf b' ≤ conf b) := by
  intro bs
  induction bs with
  | nil =>
    intro c s
    left
    exact ⟨rfl, by simp⟩
  | cons b rest ih =>
    intro c s
    rw [List.foldl_cons]
    by_cases h : conf b > c ∧ conf b > 2/5 ∧ b.option.getD "" ≠ ""
    · have hstep : s1Step conf (c, s) b = (conf b, b.option.getD "") := by
        simp only [s1Step]
        rw [if_pos h]
      rw [hstep]
      rcases ih (conf b) (b.option.getD "") with
        ⟨heq, hall⟩ | ⟨b'', hmem, hq, hc1, hc2, hlt, hmax⟩
      · right
        refine ⟨b, List.mem_cons_self b rest, ⟨h.2.1, h.2.2⟩,
          by rw [heq], by rw [heq], h.1, ?_⟩
        intro b' hb' hq'
        rcases List.mem_cons.mp hb' with rfl | hb'
        · exact le_refl _
        · exact not_lt.mp (fun hgt => hall b' hb' ⟨hgt, hq'⟩)
      · right
        refine ⟨b'', List.mem_cons_of_mem b hmem, hq, hc1, hc2, lt_trans h.1 hlt, ?_⟩
        intro b' hb' hq'
        rcases List.mem_cons.mp hb' with rfl | hb'
        · exact le_of_lt hlt
        · exact hmax b' hb' hq'
    · have hstep : s1Step conf (c, s) b = (c, s) := by
        simp only [s1Step]
        rw [if_neg h]
      rw [hstep]
      rcases ih c s with ⟨heq, hall⟩ | ⟨b'', hmem, hq, hc1, hc2, hlt, hmax⟩
      · left
        refine ⟨heq, ?_⟩
        intro b' hb'
        rcases List.mem_cons.mp hb' with rfl | hb'
        · exact h
        · exact hall b' hb'
      · right
        refine ⟨b'', List.mem_cons_of_mem b hmem, hq, hc1, hc2, hlt, ?_⟩
        intro b' hb' hq'
        rcases List.mem_cons.mp hb' with rfl | hb'
        · exact (not_lt.mp (fun hgt => h ⟨hgt, hq'⟩)).trans hlt.le
        · exact hmax b' hb' hq'

/-- C5: for every section-1 question (1..40), the recorded answer is the
empty string when no option bubble of the question both exceeds the 0.4
threshold and carries a (nonempty) option; otherwise it is the option of a
qualifying bubble whose confidence is maximal among all qualifying bubbles
of the question — so of two options above the threshold the higher
confidence wins, regardless of scan order. -/
theorem C5_section1_max_above_threshold (conf : Bubble → ℚ) (bubbles : List Bubble)
    (q : ℕ) (hq1 : 1 ≤ q) (hq2 : q ≤ 40) (hne : section1Bubbles bubbles ≠ []) :
    ((∀ b ∈ questionBubbles bubbles q, ¬(conf b > 2/5 ∧ b.option.getD "" ≠ "")) →
      (detectSection1Answers conf bubbles).getD (q - 1) "?" = "") ∧
    ((∃ b ∈ questionBubbles bubbles q, conf b > 2/5 ∧ b.option.getD "" ≠ "") →
      ∃ b ∈ questionBubbles bubbles q, (conf b > 2/5 ∧ b.option.getD "" ≠ "") ∧
        (detectSection1Answers conf bubbles).getD (q - 1) "?" = b.option.getD "" ∧
        ∀ b' ∈ questionBubbles bubbles q,
          (conf b' > 2/5 ∧ b'.option.getD "" ≠ "") → conf b' ≤ conf b) := by
  have hans : (detectSection1Answers conf bubbles).getD (q - 1) "?" =
      (if questionBubbles bubbles q = [] then ""
       else (bestScan conf (questionBubbles bubbles q)).2) := by
    unfold detectSection1Answers
    rw [if_neg hne, getD_range_map 40 (q - 1) _ "?" (by omega)]
    simp only [show q - 1 + 1 = q from by omega]
  constructor
  · intro hnone
    rw [hans]
    by_cases hq : questionBubbles bubbles q = []
    · rw [if_pos hq]
    · rw [if_neg hq]
      unfold bestScan
      rcases bestScan_inv conf (questionBubbles bubbles q) 0 "" with
        ⟨heq, _⟩ | ⟨b, hmem, hqual, _⟩
      · rw [heq]
      · exact absurd hqual (hnone b hmem)
  · rintro ⟨b0, hb0, hq0⟩
    rw [hans, if_neg (List.ne_nil_of_mem hb0)]
    rcases bestScan_inv conf (questionBubbles bubbles q) 0 "" with
      ⟨_, hall⟩ | ⟨b, hmem, hqual, _, hc2, _, hmax⟩
    · exact absurd ⟨lt_trans (by norm_num) hq0.1, hq0⟩ (hall b0 hb0)
    · exact ⟨b, hmem, hqual, hc2, hmax⟩

/-- C5 (witness): the spec's tie-break scenario — options A at 0.55 and B
at 0.72 on question 1 — resolved by the theorem; the recorded answer is an
option of maximal confidence among those above threshold. -/
theorem C5_witness :
    ∃ b ∈ questionBubbles w5bubbles 1, (w5conf b > 2/5 ∧ b.option.getD "" ≠ "") ∧
      (detectSection1Answers w5conf w5bubbles).getD (1 - 1) "?" = b.option.getD "" ∧
      ∀ b' ∈ questionBubbles w5bubbles 1,
        (w5conf b' > 2/5 ∧ b'.option.getD "" ≠ "") → w5conf b' ≤ w5conf b :=
  (C5_section1_max_above_threshold w5conf w5bubbles 1 (by norm_num) (by norm_num)
      (by decide)).2
    ⟨w5bB, List.mem_cons.mpr (Or.inr (List.mem_cons.mpr (Or.inl rfl))),
     by norm_num [w5conf, w5bB, blankBubble], by decide⟩

/-- C6 (counterexample): in a column where rows 0 and 1 have confidences
0.5 and 0.9 (both above 0.4), the extractor reports digit "0" — the first
row above the threshold in scan order — not the maximum-confidence row 1. -/
theorem C6_counterexample :
    detectStudentId c6conf c6bubbles = "0" ∧
    detectStudentId c6conf c6bubbles ≠ "1" ∧
    c6conf c6b1 > c6conf c6b0 ∧ c6conf c6b0 > 2/5 ∧ c6conf c6b1 > 2/5 ∧
    c6b0.row = some 0 ∧ c6b1.row = some 1 := by
  have hc0 : c6conf c6b0 = 1/2 := rfl
  have hc1 : c6conf c6b1 = 9/10 := rfl
  have hcd0 : columnDigit c6conf c6bubbles 0 = "0" := by
    unfold columnDigit
    rw [show columnBubbles c6bubbles 0 = [] ++ c6b0 :: [c6b1] from rfl,
      find?_first _ [] c6b0 [c6b1] (by simp)
        (by rw [Bool.and_eq_true]
            exact ⟨decide_eq_true (by rw [hc0]; norm_num), rfl⟩)]
    rfl
  have hmap : (List.range 9).map (fun col => columnDigit c6conf c6bubbles col) =
      ["0", "", "", "", "", "", "", "", ""] := by
    rw [show List.range 9 = [0, 1, 2, 3, 4, 5, 6, 7, 8] from rfl]
    simp only [List.map_cons, List.map_nil]
    rw [hcd0]
    rfl
  have hds : detectStudentId c6conf c6bubbles = "0" := by
    unfold detectStudentId
    rw [if_neg (show ¬(studentIdBubbles c6bubbles = []) by decide)]
    simp only [hmap]
    rfl
  exact ⟨hds, by rw [hds]; decide, by rw [hc0, hc1]; norm_num,
    by rw [hc0]; norm_num, by rw [hc1]; norm_num, rfl, rfl⟩

/-- C6 (amended): within a student-ID digit column, the extractor reports
the digit of the FIRST bubble in scan order whose confidence exceeds 0.4
and whose row is defined (ties and later higher-confidence rows are
ignored); with no such bubble the column contributes nothing. -/
theorem C6_studentId_first_above_threshold (conf : Bubble → ℚ)
    (bubbles : List Bubble) (col : ℕ) (pre post : List Bubble) (b : Bubble)
    (hcol : columnBubbles bubbles col = pre ++ b :: post)
    (hpre : ∀ b' ∈ pre, ¬(conf b' > 2/5 ∧ b'.row.isSome = true))
    (hb : conf b > 2/5) (hrow : b.row.isSome = true) :
    columnDigit conf bubbles col = toString (b.row.getD 0) := by
  unfold columnDigit
  rw [hcol, find?_first _ pre b post ?_ ?_]
  · intro a ha
    cases hca : (decide (conf a > 2/5) && a.row.isSome) with
    | false => rfl
    | true =>
      rw [Bool.and_eq_true] at hca
      exact absurd ⟨of_decide_eq_true hca.1, hca.2⟩ (hpre a ha)
  · rw [Bool.and_eq_true]
    exact ⟨decide_eq_true hb, hrow⟩

/-- C6 (witness): the first-above-threshold rule evaluated on the concrete
two-row column of `c6bubbles`. -/
theorem C6_witness :
    columnDigit c6conf c6bubbles 0 = toString (c6b0.row.getD 0) :=
  C6_studentId_first_above_threshold c6conf c6bubbles 0 [] [c6b1] c6b0 rfl
    (by simp) (by rw [show c6conf c6b0 = (1 : ℚ)/2 from rfl]; norm_num) rfl

/-- C7 (counterexample): for a sub-option whose true-state bubble has
confidence 0.5 and whose false-state bubble has confidence 0.9 (both above
0.4), the resolved boolean is `true` — the value of the first candidate in
scan order — not the value of the higher-confidence candidate. -/
theorem C7_counterexample :
    resolveSub c7conf c7bubbles = true ∧
    c7conf c7bFalse > c7conf c7bTrue ∧ c7conf c7bTrue > 2/5 ∧
    c7conf c7bFalse > 2/5 ∧ c7bFalse.value = some false ∧
    c7bTrue.value = some true := by
  have ht : c7conf c7bTrue = 1/2 := rfl
  have hf : c7conf c7bFalse = 9/10 := rfl
  have hres : resolveSub c7conf c7bubbles = true := by
    unfold resolveSub
    rw [show c7bubbles = [] ++ c7bTrue :: [c7bFalse] from rfl,
      find?_first _ [] c7bTrue [c7bFalse] (by simp) (by simp [ht]; norm_num)]
    rfl
  exact ⟨hres, by rw [ht, hf]; norm_num, by rw [ht]; norm_num,
    by rw [hf]; norm_num, rfl, rfl⟩

/-- C7 (amended): each section-2 sub-option resolves independently over its
own candidate list; the resolved boolean is the `value` of the FIRST
candidate in scan order (true-state bubble first, as generated) whose
confidence exceeds 0.4, and `false` when no candidate exceeds 0.4. -/
theorem C7_section2_first_in_scan_order (conf : Bubble → ℚ)
    (bubbles : List Bubble) (q : ℕ) (hq1 : 1 ≤ q) (hq2 : q ≤ 8)
    (hne : section2Bubbles bubbles ≠ []) :
    ((detectSection2Answers conf bubbles).getD (q - 1) ⟨false, false, false, false⟩ =
      { a := resolveSub conf (subOptionBubbles bubbles q "a")
        b := resolveSub conf (subOptionBubbles bubbles q "b")
        c := resolveSub conf (subOptionBubbles bubbles q "c")
        d := resolveSub conf (subOptionBubbles bubbles q "d") }) ∧
    (∀ bs : List Bubble,
      ((∀ b ∈ bs, conf b ≤ 2/5) → resolveSub conf bs = false) ∧
      (∀ pre b post, bs = pre ++ b :: post → (∀ b' ∈ pre, conf b' ≤ 2/5) →
        conf b > 2/5 → resolveSub conf bs = b.value.getD false)) := by
  constructor
  · unfold detectSection2Answers
    rw [if_neg hne, getD_range_map 8 (q - 1) _ _ (by omega)]
    simp only [show q - 1 + 1 = q from by omega]
  · intro bs
    constructor
    · intro hall
      unfold resolveSub
      have hnone : bs.find? (fun b => decide (conf b > 2/5)) = none := by
        rw [List.find?_eq_none]
        intro x hx
        simp only [decide_eq_true_eq]
        exact not_lt.mpr (hall x hx)
      rw [hnone]
    · intro pre b post hbs hpre hb
      unfold resolveSub
      rw [hbs, find?_first _ pre b post
        (fun a ha => decide_eq_false (not_lt.mpr (hpre a ha))) (decide_eq_true hb)]

/-- C7 (witness): the scan-order rule applied to the concrete candidate
pair `c7bubbles` (both above the threshold): the result is the value of the
first candidate. -/
theorem C7_witness : resolveSub c7conf c7bubbles = c7bTrue.value.getD false :=
  ((C7_section2_first_in_scan_order c7conf c7bubbles 1 (by norm_num) (by norm_num)
      (by decide)).2 c7bubbles).2 [] c7bTrue [c7bFalse] rfl (by simp)
    (by rw [show c7conf c7bTrue = (1 : ℚ)/2 from rfl]; norm_num)

set_option maxHeartbeats 3200000 in
/-- C9: with fewer than 4 corner markers the grid generator returns the
fallback grid built from fixed fractional offsets of the raw image size;
the pipeline is total (a result is returned, never an exception) and its
arrays have the same full shape as on the marker-based path (40/8/6, cf.
C1); and the fallback grid covers every section-1 question 1..40. -/
theorem C9_fallback_grid (markers : Markers) (w h : ℚ) (conf : Bubble → ℚ)
    (hc : markers.corners.length < 4) :
    generateBubbleGrid markers w h = generateDefaultBubblePositions w h ∧
    (processWithOpenCV markers w h conf).phanI.length = 40 ∧
    (processWithOpenCV markers w h conf).phanII.length = 8 ∧
    (processWithOpenCV markers w h conf).phanIII.length = 6 ∧
    (∀ q : ℕ, 1 ≤ q → q ≤ 40 →
      ((generateDefaultBubblePositions w h).any
        (fun b => b.«section» == some "section1" && b.question == some q)) = true) := by
  refine ⟨?_, (process_lengths markers w h conf).1,
    (process_lengths markers w h conf).2.1,
    (process_lengths markers w h conf).2.2, ?_⟩
  · unfold generateBubbleGrid
    rw [if_pos hc]
  · intro q h1 h2
    interval_cases q <;> rfl

/-- C9 (witness): the fallback equality and the array shapes at the
concrete marker-free input on a 700×700 image. -/
theorem C9_witness :
    generateBubbleGrid noMarkers 700 700 = generateDefaultBubblePositions 700 700 ∧
    (processWithOpenCV noMarkers 700 700 zeroConf).phanI.length = 40 ∧
    (processWithOpenCV noMarkers 700 700 zeroConf).phanII.length = 8 ∧
    (processWithOpenCV noMarkers 700 700 zeroConf).phanIII.length = 6 :=
  ⟨(C9_fallback_grid noMarkers 700 700 zeroConf (by decide)).1,
   (C9_fallback_grid noMarkers 700 700 zeroConf (by decide)).2.1,
   (C9_fallback_grid noMarkers 700 700 zeroConf (by decide)).2.2.1,
   (C9_fallback_grid noMarkers 700 700 zeroConf (by decide)).2.2.2.1⟩

end Chambai
